import Mathlib

/-!
Shallow embedding of the Daxa safe-loader wrapper
(`langchain_community/document_loaders/daxa.py`) and its metadata
utilities (`langchain_community/utilities/pebblo.py`).

Python effects are made explicit: filesystem access goes through a
`FileSystem` record, HTTP traffic through an `HttpOutcome` parameter,
raised exceptions through `Except`/`Option String` results, and
`pathlib.Path(...).resolve()` through an abstract `resolve` function.
-/

-- Decidable equality for `Except` results, so witnesses can be checked
-- by evaluation.
deriving instance DecidableEq for Except

namespace DaxaModel

/-- A `langchain_core` document as the wrapper reads it: textual content
plus the two metadata fields it consumes (`metadata["source"]`,
`metadata["last_modified"]`).  `source := none` models a metadata mapping
with no `source` key (Python `dict.get` then yields `None`). -/
structure Document where
  page_content : String
  source : Option String := none
  last_modified : Option String := none
deriving Repr, DecidableEq

/-! ## Loader type classification (pebblo.py lines 21-50, 159-171) -/

/-- `file_loader` list from pebblo.py. -/
def file_loader : List String :=
  ["JSONLoader", "S3FileLoader", "UnstructuredMarkdownLoader",
   "UnstructuredPDFLoader", "UnstructuredFileLoader", "UnstructuredJsonLoader",
   "PyPDFLoader", "GCSFileLoader", "AmazonTextractPDFLoader", "CSVLoader",
   "UnstructuredExcelLoader", "UnstructuredEmailLoader"]

/-- `dir_loader` list from pebblo.py. -/
def dir_loader : List String :=
  ["DirectoryLoader", "S3DirLoader", "SlackDirectoryLoader",
   "PyPDFDirectoryLoader", "NotionDirectoryLoader"]

/-- `in_memory` list from pebblo.py. -/
def in_memory : List String := ["DataFrameLoader"]

/-- `remote_db` list from pebblo.py. -/
def remote_db : List String := ["NotionDBLoader", "GoogleDriveLoader"]

/-- `LOADER_TYPE_MAPPING` from pebblo.py; a Python dict iterates in
insertion order, so it is embedded as an ordered association list. -/
def LOADER_TYPE_MAPPING : List (String × List String) :=
  [("file", file_loader), ("dir", dir_loader),
   ("in-memory", in_memory), ("remote_db", remote_db)]

/-- The `for loader_type, loaders in LOADER_TYPE_MAPPING.items()` loop body
of `get_loader_type`: first category whose list contains the name. -/
def lookupLoaderType : List (String × List String) → String → String
  | [], _ => "unknown"
  | (loader_type, loaders) :: rest, loader =>
      if loaders.contains loader then loader_type else lookupLoaderType rest loader

/-- `get_loader_type` from pebblo.py: exact membership lookup over
`LOADER_TYPE_MAPPING` in insertion order, `"unknown"` when absent. -/
def get_loader_type (loader : String) : String :=
  lookupLoaderType LOADER_TYPE_MAPPING loader

/-! ## Path resolution (pebblo.py lines 138-156) -/

/-- Is `pat` a prefix of the character list? -/
def startsWithChars : List Char → List Char → Bool
  | [], _ => true
  | _ :: _, [] => false
  | p :: ps, c :: cs => p == c && startsWithChars ps cs

/-- Does `pat` occur as a contiguous run anywhere in the character list? -/
def containsChars (pat : List Char) : List Char → Bool
  | [] => startsWithChars pat []
  | c :: cs => startsWithChars pat (c :: cs) || containsChars pat cs

/-- Python's `"://" in path`: substring occurrence. -/
def hasSchemeSep (path : String) : Bool := containsChars "://".data path.data

/-- `get_full_path` from pebblo.py.  `resolve` stands for
`str(pathlib.Path(path).resolve())`, the environment-dependent
relative-to-absolute resolution; the guard clauses are the code's own.
(`"/" == path[0]` is only reached when the string is non-empty, which the
disjunction order preserves here.) -/
def get_full_path (resolve : String → String) (path : String) : String :=
  if path.isEmpty || hasSchemeSep path || path.front == '/'
      || ["unknown", "-", "in-memory"].contains path
  then path
  else resolve path

/-! ## Filesystem model and source sizes (daxa.py lines 145-165) -/

/-- A filesystem node: a regular file with its byte size, a directory with
named entries, or a symbolic link.  Link targets are not modelled: symlink
nodes stand for the links that `os.walk`-based size computation skips
(`os.path.islink` is true on them), and `isfile`/`isdir` are modelled
false on them (a dangling link behaves this way in the source too). -/
inductive FSNode where
  | file (size : Nat)
  | dir (entries : List (String × FSNode))
  | symlink

/-- `os.path.islink` on a modelled node. -/
def FSNode.isLink : FSNode → Bool
  | .symlink => true
  | _ => false

/-- `os.path.getsize` on a node appearing in a `filenames` list (only
regular files and links appear there; the walk filters out links before
asking for a size, so the non-file values are never consulted). -/
def FSNode.getsize : FSNode → Nat
  | .file sz => sz
  | _ => 0

/-- The non-directory entries of one directory level: the `filenames`
component `os.walk` reports for that directory (regular files and
symlinks; subdirectories go to `dirnames` instead). -/
def entryFiles (es : List (String × FSNode)) : List FSNode :=
  es.filterMap fun e =>
    match e.2 with
    | FSNode.dir _ => none
    | n => some n

/-- The inner loop of `get_source_size`'s directory branch:
`for f in filenames: if not os.path.islink(fp): total_size += os.path.getsize(fp)`. -/
def fileListSize (l : List FSNode) : Nat :=
  (l.filter (fun n => !n.isLink)).foldr (fun n acc => n.getsize + acc) 0

mutual
/-- Total accumulated by `os.walk(source_path)` over one directory's entry
list: this level's non-link file sizes plus the walk of each subdirectory
(`os.walk` with `followlinks=False` does not descend into links). -/
def walkEntriesTotal (es : List (String × FSNode)) : Nat :=
  fileListSize (entryFiles es) + walkSubdirs es

/-- The recursive part of the walk: visit each subdirectory entry. -/
def walkSubdirs : List (String × FSNode) → Nat
  | [] => 0
  | (_, FSNode.dir es') :: rest => walkEntriesTotal es' + walkSubdirs rest
  | _ :: rest => walkSubdirs rest
end

/-- Specification-side total: the sum of the sizes of the non-symlink
regular files anywhere beneath a directory's entry list, by direct
structural recursion. -/
def entriesTotal : List (String × FSNode) → Nat
  | [] => 0
  | (_, FSNode.file sz) :: rest => sz + entriesTotal rest
  | (_, FSNode.symlink) :: rest => entriesTotal rest
  | (_, FSNode.dir es') :: rest => entriesTotal es' + entriesTotal rest

/-- The filesystem as the wrapper sees it: `lookup` resolves a path string
to the node it denotes (`none`: no such path), and `ownerOf` is the
`os.stat` + `pwd.getpwuid` owner-name query (`none`: the query raises). -/
structure FileSystem where
  lookup : String → Option FSNode
  ownerOf : String → Option String

/-- `DaxaSafeLoader.get_file_owner_from_path`: any failure of the stat or
the uid lookup (including a `None` path, where `os.stat` raises
`TypeError`) is caught and degrades to `"unknown"`. -/
def get_file_owner_from_path (fs : FileSystem) : Option String → String
  | none => "unknown"
  | some p => (fs.ownerOf p).getD "unknown"

/-- `DaxaSafeLoader.get_source_size`.  A `None` path makes
`os.path.isfile` raise `TypeError`; a path that is neither a regular file
nor a directory leaves the local variable `size` unassigned, so the final
`return size` raises `UnboundLocalError`.  Both escape the function. -/
def get_source_size (fs : FileSystem) : Option String → Except String Nat
  | none => .error "TypeError"
  | some p =>
      match fs.lookup p with
      | some (FSNode.file sz) => .ok sz
      | some (FSNode.dir es) => .ok (walkEntriesTotal es)
      | _ => .error "UnboundLocalError"

/-! ## The wrapped loader (daxa.py collaborator) -/

/-- The wrapped langchain loader as the wrapper observes it: its dynamic
class name (`str(type(loader))` munging in daxa.py line 33 recovers
exactly the class name), the instance attributes `get_loader_full_path`
probes for (`none` models an absent attribute), and the results of its
two loading operations.  `lazyDocs := none` models a loader whose
`lazy_load` raises `NotImplementedError` (the `BaseLoader` default);
`isinstance` tests against specific loader classes are modelled by
comparing the dynamic class name. -/
structure PyLoader where
  className : String
  isBaseLoader : Bool := true
  bucket : Option String := none
  blob : Option String := none
  key : Option String := none
  source : Option String := none
  channel : Option String := none
  path : Option String := none
  file_path : Option String := none
  web_paths : Option (List String) := none
  database_id : Option String := none
  eagerDocs : List Document := []
  lazyDocs : Option (List Document) := none
deriving Repr, DecidableEq

/-- The `location` computation of `get_loader_full_path` (pebblo.py lines
188-214): attribute-presence dispatch in the source's fixed order.
Accessing a scheme component the instance does not carry raises
`AttributeError`; `loader.web_paths[0]` on an empty list raises
`IndexError`. -/
def loaderLocation (l : PyLoader) : Except String String :=
  match l.bucket with
  | some b =>
      if l.className = "GCSFileLoader" then
        match l.blob with
        | some blob => .ok s!"gc://{b}/{blob}"
        | none => .error "AttributeError"
      else if l.className = "S3FileLoader" then
        match l.key with
        | some k => .ok s!"s3://{b}/{k}"
        | none => .error "AttributeError"
      else .ok "-"
  | none =>
    match l.source with
    | some src =>
        match l.channel with
        | some ch => .ok s!"{src}/{ch}"
        | none => .ok src
    | none =>
      match l.path with
      | some p => .ok p
      | none =>
        match l.file_path with
        | some fp => .ok fp
        | none =>
          match l.web_paths with
          | some [] => .error "IndexError"
          | some (w :: _) => .ok w
          | none =>
            if l.className = "DataFrameLoader" then .ok "in-memory"
            else if l.className = "NotionDBLoader" then
              match l.database_id with
              | some dbid => .ok s!"notiondb://{dbid}"
              | none => .error "AttributeError"
            else .ok "-"

/-- `get_loader_full_path` from pebblo.py: a non-`BaseLoader` value
returns the sentinel `"-"` immediately (without `get_full_path`);
otherwise the resolved location is passed through `get_full_path`. -/
def get_loader_full_path (resolve : String → String) (l : PyLoader) :
    Except String String :=
  if !l.isBaseLoader then .ok "-"
  else (loaderLocation l).map (get_full_path resolve)

/-! ## Loader/doc report payload (daxa.py lines 79-113) -/

/-- One entry of the payload's `docs` list, as built in daxa.py line 87. -/
structure DocRecord where
  doc : String
  source_path : Option String
  last_modified : Option String
  file_owner : String
  source_size : Nat
deriving Repr, DecidableEq

/-- `self.loader_details` as assembled in `__init__` (daxa.py lines 36-41). -/
structure LoaderDetails where
  loader : String
  source_path : String
  source_type : String
  source_size : Nat
deriving Repr, DecidableEq

/-- A value stored in the JSON payload dictionary. -/
inductive PVal where
  | s (v : String)
  | docList (v : List DocRecord)
  | details (v : LoaderDetails)
deriving Repr, DecidableEq

/-- A Python dict used as a JSON payload: ordered key/value pairs. -/
def Payload := List (String × PVal)
deriving instance Repr, DecidableEq for Payload

/-- `payload[k] = v` on a Python dict: update in place when the key
exists, append otherwise. -/
def setKey : Payload → String → PVal → Payload
  | [], k, v => [(k, v)]
  | (k', v') :: rest, k, v =>
      if k' = k then (k', v) :: rest else (k', v') :: setKey rest k v

/-- `PLUGIN_VERSION` from pebblo.py. -/
def PLUGIN_VERSION : String := "0.1.0"

/-- The instance state `__init__` stores that the reporting methods later
read.  `self.docs` is not part of it: the methods overwrite it just
before each report, so the embedding passes the current document list to
the report function explicitly. -/
structure LoaderState where
  app_name : String
  load_id : String
  owner : String
  description : String
  source_path : String
  source_owner : String
  source_type : String
  source_size : Nat
  loader_details : LoaderDetails
deriving Repr, DecidableEq

/-- One entry of the per-document loop of `_send_loader_doc` (daxa.py
lines 83-87): resolve the document's source path, look up its owner
(never raises) and its size (raises `TypeError` on a missing source key,
`UnboundLocalError` on a path that is neither file nor directory). -/
def buildDocRecord (fs : FileSystem) (resolve : String → String)
    (d : Document) : Except String DocRecord := do
  let doc_source_path : Option String := d.source.map (get_full_path resolve)
  let doc_source_owner := get_file_owner_from_path fs doc_source_path
  let doc_source_size ← get_source_size fs doc_source_path
  .ok { doc := d.page_content, source_path := doc_source_path,
        last_modified := d.last_modified, file_owner := doc_source_owner,
        source_size := doc_source_size }

/-- The whole `for doc in doc_content` loop. -/
def buildDocRecords (fs : FileSystem) (resolve : String → String)
    (docs : List Document) : Except String (List DocRecord) :=
  docs.mapM (buildDocRecord fs resolve)

/-- The payload dict literal of `_send_loader_doc` (daxa.py lines 88-99),
including the subsequent `payload["loading_end"] = "true"` assignment on
a terminal report. -/
def buildLoaderDocPayload (st : LoaderState) (records : List DocRecord)
    (loading_end : Bool) : Payload :=
  let payload : Payload :=
    [("name", .s st.app_name),
     ("owner", .s st.owner),
     ("docs", .docList records),
     ("plugin_version", .s PLUGIN_VERSION),
     ("load_id", .s st.load_id),
     ("loader_details", .details st.loader_details),
     ("loading_end", .s "false"),
     ("file_owner", .s st.source_owner)]
  if loading_end then setKey payload "loading_end" (.s "true") else payload

/-- The required fields of the `Doc` schema (pebblo.py lines 114-135), in
declaration order: every one lacks a default, so each is required. -/
def docRequiredFields : List String :=
  ["name", "owner", "docs", "plugin_version", "load_id",
   "loader_details", "loading_end", "source_owner"]

/-- `Doc.model_validate(payload)` at the granularity the claims need:
validation fails exactly when a required field of the schema is missing
from the payload (extra keys are ignored by the schema's default
configuration). -/
def validateDoc (p : Payload) : Bool :=
  docRequiredFields.all (fun k => (p.lookup k).isSome)

/-! ## HTTP world -/

/-- What the remote service would answer one POST: its status code and
whether the response body parses as JSON (`resp.json()`). -/
structure HttpResponse where
  status : Nat
  jsonOk : Bool
deriving Repr, DecidableEq

/-- Outcome of one attempted `requests.post`: either the request itself
raises a `requests.exceptions.RequestException`, or a response arrives. -/
inductive HttpOutcome where
  | requestError
  | response (r : HttpResponse)
deriving Repr, DecidableEq

/-! ## The reporting methods (daxa.py lines 79-130) -/

/-- Observable outcome of one `_send_loader_doc` call. `builtPayload` is
the dict the method assembled (`none`: the per-document loop raised
first); `requestSent` records whether `requests.post` was reached;
`raisedErr` is the exception escaping to the caller, if any;
`loaderSentFlag` tells whether the final `set_loader_sent()` ran. -/
structure SendLoaderDocResult where
  builtPayload : Option Payload
  requestSent : Bool
  raisedErr : Option String
  loaderSentFlag : Bool
deriving Repr, DecidableEq

/-- `_send_loader_doc`.  The per-document metadata loop and the
`Doc.model_validate` call sit BEFORE the `try:` block (daxa.py lines
81-100 vs 102), so their exceptions escape the method; everything inside
the `try` (the POST, the status check, the debug logging including
`resp.json()`) is covered by `except` clauses that swallow every
exception, whatever the network outcome `net` is. -/
def send_loader_doc (fs : FileSystem) (resolve : String → String)
    (st : LoaderState) (docsArg : List Document) (loading_end : Bool)
    (_net : HttpOutcome) : SendLoaderDocResult :=
  match buildDocRecords fs resolve docsArg with
  | .error e => ⟨none, false, some e, false⟩
  | .ok records =>
      let payload := buildLoaderDocPayload st records loading_end
      if validateDoc payload then
        ⟨some payload, true, none, loading_end⟩
      else
        ⟨some payload, false, some "ValidationError", false⟩

/-- Observable outcome of one `_send_discover` call. -/
structure DiscoverResult where
  requestSent : Bool
  discoverSentFlag : Bool
  raisedErr : Option String
deriving Repr, DecidableEq

/-- `_send_discover` (daxa.py lines 115-130).  The app payload dump of a
fully-populated `App` succeeds, so the POST is always attempted; the
debug log calls `resp.json()` before the status check, so a non-JSON
body skips the `set_discover_sent()` branch; every exception inside the
`try` is caught, so the method never raises. -/
def send_discover (net : HttpOutcome) : DiscoverResult :=
  match net with
  | .requestError => ⟨true, false, none⟩
  | .response r =>
      if !r.jsonOk then ⟨true, false, none⟩
      else if r.status = 200 || r.status = 502 then ⟨true, true, none⟩
      else ⟨true, false, none⟩

/-! ## load / lazy_load (daxa.py lines 46-69) -/

/-- Observable outcome of one `load()` call: the single `_send_loader_doc`
invocation it makes, and the value returned to the caller (`none`: an
exception propagated instead of a return). -/
structure LoadResult where
  send : SendLoaderDocResult
  returned : Option (List Document)
deriving Repr, DecidableEq

/-- `load()`: delegate to the wrapped loader's eager `load`, store the
result in `self.docs`, make exactly one terminal `_send_loader_doc`
call, return the documents — unless that call raises, in which case the
exception propagates and nothing is returned. -/
def load (fs : FileSystem) (resolve : String → String) (st : LoaderState)
    (l : PyLoader) (net : HttpOutcome) : LoadResult :=
  let docs := l.eagerDocs
  let s := send_loader_doc fs resolve st docs true net
  match s.raisedErr with
  | some _ => ⟨s, none⟩
  | none => ⟨s, some docs⟩

/-- Observable outcome of driving the `lazy_load()` generator to its end:
the batches yielded to the caller in order, the `_send_loader_doc` calls
made in order, and the exception that escaped the generator, if any. -/
structure LazyResult where
  yielded : List (List Document)
  sends : List SendLoaderDocResult
  raisedErr : Option String
deriving Repr, DecidableEq

/-- The `while True` loop of `lazy_load`: pull the next document, send a
non-terminal single-document report, yield `[doc]`; on exhaustion send
one terminal report over the empty list and stop.  An exception from a
report call escapes the generator at that point. -/
def lazyRunAux (fs : FileSystem) (resolve : String → String)
    (st : LoaderState) (net : HttpOutcome) : List Document → LazyResult
  | [] =>
      let s := send_loader_doc fs resolve st [] true net
      ⟨[], [s], s.raisedErr⟩
  | d :: rest =>
      let s := send_loader_doc fs resolve st [d] false net
      match s.raisedErr with
      | some e => ⟨[], [s], some e⟩
      | none =>
          let r := lazyRunAux fs resolve st net rest
          ⟨[d] :: r.yielded, s :: r.sends, r.raisedErr⟩

/-- `lazy_load()` driven to completion.  A wrapped loader without lazy
support makes `self.loader.lazy_load()` raise `NotImplementedError`,
which the wrapper re-raises with the message
`f"{self.__class__.__name__} does not implement lazy_load()"` — the
format argument is the WRAPPER's own class, `DaxaSafeLoader`. -/
def lazy_load (fs : FileSystem) (resolve : String → String)
    (st : LoaderState) (l : PyLoader) (net : HttpOutcome) : LazyResult :=
  match l.lazyDocs with
  | none => ⟨[], [], some "DaxaSafeLoader does not implement lazy_load()"⟩
  | some ds => lazyRunAux fs resolve st net ds

/-! ## Construction (daxa.py lines 20-44) -/

/-- A Python value passed for `app_id`/`owner`: a string, or a value of
any other type together with its truthiness. -/
inductive PyVal where
  | str (s : String)
  | nonStr (truthy : Bool)
deriving Repr, DecidableEq

/-- `not (not v or not isinstance(v, str))`: the guard passes exactly on
truthy strings, and a string is truthy exactly when non-empty. -/
def validIdArg : PyVal → Bool
  | .str s => !s.isEmpty
  | .nonStr _ => false

/-- Message of the `NameError` raised for a bad `app_id`. -/
def nameErrorAppId : String := "No app_id is passed or invalid app_id."

/-- Message of the `NameError` raised for a bad `owner`. -/
def nameErrorOwner : String := "No owner is passed or invalid owner."

/-- The state and discover report a successful construction produces. -/
structure InitResult where
  state : LoaderState
  discover : DiscoverResult
deriving Repr, DecidableEq

/-- `DaxaSafeLoader.__init__`.  `uuid` is the value `str(uuid.uuid4())`
drew for this instance (uuid4 is an external randomness source; its
contract is that distinct draws are distinct).  The runtime/framework
snapshot of `_get_app_details` is environment introspection with no
bearing on any claim and is not recorded in the state. -/
def daxaInit (fs : FileSystem) (resolve : String → String) (l : PyLoader)
    (app_id owner : PyVal) (description : String) (uuid : String)
    (net : HttpOutcome) : Except String InitResult :=
  match app_id with
  | .nonStr _ => .error nameErrorAppId
  | .str a =>
    if a.isEmpty then .error nameErrorAppId
    else
      match owner with
      | .nonStr _ => .error nameErrorOwner
      | .str o =>
        if o.isEmpty then .error nameErrorOwner
        else do
          let source_path ← get_loader_full_path resolve l
          let source_owner := get_file_owner_from_path fs (some source_path)
          let loader_name := l.className
          let source_type := get_loader_type loader_name
          let source_size ← get_source_size fs (some source_path)
          let st : LoaderState :=
            { app_name := a, load_id := uuid, owner := o,
              description := description, source_path := source_path,
              source_owner := source_owner, source_type := source_type,
              source_size := source_size,
              loader_details := ⟨loader_name, source_path, source_type,
                                 source_size⟩ }
          .ok ⟨st, send_discover net⟩

/-! ## Concrete inputs for witnesses and counterexamples -/

/-- A concrete resolution function standing for `pathlib.Path.resolve`
in a process whose working directory is `/cwd`. -/
def exResolve : String → String := fun p => "/cwd/" ++ p

/-- A concrete filesystem: one regular file of five bytes, and one
directory holding files of sizes 10 and 20 plus a symbolic link. -/
def exFs : FileSystem where
  lookup p :=
    if p = "/tmp/a.txt" then some (.file 5)
    else if p = "/data" then
      some (.dir [("f1", .file 10), ("f2", .file 20), ("lnk", .symlink)])
    else none
  ownerOf _ := none

/-- A first concrete document whose source is the file above. -/
def exDoc1 : Document := { page_content := "hello", source := some "/tmp/a.txt" }

/-- A second concrete document with the same source. -/
def exDoc2 : Document := { page_content := "world", source := some "/tmp/a.txt" }

/-- The record `_send_loader_doc` builds for `exDoc1` over `exFs`. -/
def exRecord1 : DocRecord :=
  { doc := "hello", source_path := some "/tmp/a.txt", last_modified := none,
    file_owner := "unknown", source_size := 5 }

/-- A concrete wrapped loader whose eager load produces one document. -/
def exLoader : PyLoader :=
  { className := "TextLoader", file_path := some "/tmp/a.txt",
    eagerDocs := [exDoc1] }

/-- A concrete wrapped loader whose lazy iterator yields two documents. -/
def exLazyLoader : PyLoader :=
  { className := "TextLoader", file_path := some "/tmp/a.txt",
    lazyDocs := some [exDoc1, exDoc2] }

/-- A concrete wrapped loader without lazy-iteration support. -/
def exNoLazyLoader : PyLoader :=
  { className := "TextLoader", file_path := some "/tmp/a.txt" }

/-- The wrapper state a construction over `exLoader`/`exFs` produces. -/
def exSt : LoaderState :=
  { app_name := "app", load_id := "load-1", owner := "joe", description := "",
    source_path := "/tmp/a.txt", source_owner := "unknown",
    source_type := "unknown", source_size := 5,
    loader_details := ⟨"TextLoader", "/tmp/a.txt", "unknown", 5⟩ }

end DaxaModel

namespace DaxaModel

/-! ## Helper lemmas -/

/-- The loader/doc payload never carries a `source_owner` key: the
constructor's owner value is stored under `file_owner` instead. -/
theorem lookup_payload_source_owner (st : LoaderState) (records : List DocRecord)
    (b : Bool) : (buildLoaderDocPayload st records b).lookup "source_owner" = none := by
  cases b <;> rfl

/-- The loader/doc payload always carries a `file_owner` key. -/
theorem lookup_payload_file_owner (st : LoaderState) (records : List DocRecord)
    (b : Bool) : (buildLoaderDocPayload st records b).lookup "file_owner" =
      some (PVal.s st.source_owner) := by
  cases b <;> rfl

/-- The loader/doc payload's `docs` entry is exactly the record list built
from the current document batch. -/
theorem lookup_payload_docs (st : LoaderState) (records : List DocRecord)
    (b : Bool) : (buildLoaderDocPayload st records b).lookup "docs" =
      some (PVal.docList records) := by
  cases b <;> rfl

/-- The loader/doc payload's `loading_end` entry is the literal string
`"true"` on a terminal report and `"false"` otherwise. -/
theorem lookup_payload_loading_end (st : LoaderState) (records : List DocRecord)
    (b : Bool) : (buildLoaderDocPayload st records b).lookup "loading_end" =
      some (PVal.s (if b then "true" else "false")) := by
  cases b <;> rfl

/-- Validation of the loader/doc payload against the `Doc` schema fails on
every call: the required `source_owner` field is always missing. -/
theorem validateDoc_payload_false (st : LoaderState) (records : List DocRecord)
    (b : Bool) : validateDoc (buildLoaderDocPayload st records b) = false := by
  cases b <;> rfl

/-- Whenever the per-document loop succeeds, `_send_loader_doc` builds its
payload, fails validation, raises, and never reaches `requests.post`. -/
theorem send_loader_doc_eq (fs : FileSystem) (resolve : String → String)
    (st : LoaderState) (docsArg : List Document) (b : Bool) (net : HttpOutcome)
    (records : List DocRecord)
    (hrec : buildDocRecords fs resolve docsArg = .ok records) :
    send_loader_doc fs resolve st docsArg b net =
      ⟨some (buildLoaderDocPayload st records b), false,
       some "ValidationError", false⟩ := by
  unfold send_loader_doc
  rw [hrec]
  simp [validateDoc_payload_false]

/-- `_send_loader_doc` always raises and never issues its POST, whatever
the documents, the filesystem and the network would have answered. -/
theorem send_loader_doc_always_raises (fs : FileSystem)
    (resolve : String → String) (st : LoaderState) (docsArg : List Document)
    (b : Bool) (net : HttpOutcome) :
    (send_loader_doc fs resolve st docsArg b net).requestSent = false
    ∧ (send_loader_doc fs resolve st docsArg b net).raisedErr.isSome = true := by
  unfold send_loader_doc
  cases hrec : buildDocRecords fs resolve docsArg with
  | error e => exact ⟨rfl, rfl⟩
  | ok records => simp [validateDoc_payload_false]

/-- A regular file at the head of a directory level joins the `filenames`
list. -/
theorem entryFiles_cons_file (n : String) (sz : Nat)
    (rest : List (String × FSNode)) :
    entryFiles ((n, FSNode.file sz) :: rest) = FSNode.file sz :: entryFiles rest := rfl

/-- A symlink at the head of a directory level joins the `filenames` list. -/
theorem entryFiles_cons_symlink (n : String) (rest : List (String × FSNode)) :
    entryFiles ((n, FSNode.symlink) :: rest) = FSNode.symlink :: entryFiles rest := rfl

/-- A subdirectory at the head of a directory level is not a filename. -/
theorem entryFiles_cons_dir (n : String) (es' rest : List (String × FSNode)) :
    entryFiles ((n, FSNode.dir es') :: rest) = entryFiles rest := rfl

/-- A regular file contributes its size to the per-level total. -/
theorem fileListSize_cons_file (sz : Nat) (l : List FSNode) :
    fileListSize (FSNode.file sz :: l) = sz + fileListSize l := rfl

/-- A symlink is filtered out of the per-level total. -/
theorem fileListSize_cons_symlink (l : List FSNode) :
    fileListSize (FSNode.symlink :: l) = fileListSize l := rfl

/-- Unfolding equation of `walkEntriesTotal` (it is compiled by
well-founded recursion, so it does not unfold definitionally). -/
theorem walkEntriesTotal_eq (es : List (String × FSNode)) :
    walkEntriesTotal es = fileListSize (entryFiles es) + walkSubdirs es := by
  rw [walkEntriesTotal]

/-- The walk of an empty directory accumulates nothing. -/
theorem walkEntriesTotal_nil : walkEntriesTotal [] = 0 := by
  simp [walkEntriesTotal_eq, walkSubdirs, entryFiles, fileListSize]

/-- The subdirectory walk skips a file entry. -/
theorem walkSubdirs_cons_file (n : String) (sz : Nat)
    (rest : List (String × FSNode)) :
    walkSubdirs ((n, FSNode.file sz) :: rest) = walkSubdirs rest := by
  simp [walkSubdirs]

/-- The subdirectory walk skips a symlink entry. -/
theorem walkSubdirs_cons_symlink (n : String) (rest : List (String × FSNode)) :
    walkSubdirs ((n, FSNode.symlink) :: rest) = walkSubdirs rest := by
  simp [walkSubdirs]

/-- The subdirectory walk descends into a directory entry. -/
theorem walkSubdirs_cons_dir (n : String) (es' rest : List (String × FSNode)) :
    walkSubdirs ((n, FSNode.dir es') :: rest) =
      walkEntriesTotal es' + walkSubdirs rest := by
  simp [walkSubdirs]

/-- The walk-style accumulation of `get_source_size`'s directory branch
computes the plain recursive sum of non-symlink regular-file sizes. -/
theorem walkEntriesTotal_eq_entriesTotal (es : List (String × FSNode)) :
    walkEntriesTotal es = entriesTotal es := by
  induction es using entriesTotal.induct with
  | case1 => rw [entriesTotal]; exact walkEntriesTotal_nil
  | case2 n sz rest ih =>
      rw [entriesTotal, ← ih, walkEntriesTotal_eq ((n, FSNode.file sz) :: rest),
        walkEntriesTotal_eq rest, entryFiles_cons_file, fileListSize_cons_file,
        walkSubdirs_cons_file]
      omega
  | case3 n rest ih =>
      rw [entriesTotal, ← ih, walkEntriesTotal_eq ((n, FSNode.symlink) :: rest),
        walkEntriesTotal_eq rest, entryFiles_cons_symlink,
        fileListSize_cons_symlink, walkSubdirs_cons_symlink]
  | case4 n es' rest ih1 ih2 =>
      rw [entriesTotal, ← ih1, ← ih2,
        walkEntriesTotal_eq ((n, FSNode.dir es') :: rest),
        entryFiles_cons_dir, walkSubdirs_cons_dir, walkEntriesTotal_eq rest]
      omega

/-- The only exceptions `get_source_size` can raise. -/
theorem get_source_size_error_cases (fs : FileSystem) (p : Option String)
    (e : String) (h : get_source_size fs p = .error e) :
    e = "TypeError" ∨ e = "UnboundLocalError" := by
  cases p with
  | none => left; simpa [get_source_size] using h.symm
  | some s =>
      unfold get_source_size at h
      repeat' split at h
      all_goals simp_all

/-- The only exceptions the `location` dispatch can raise. -/
theorem loaderLocation_error_cases (l : PyLoader) (e : String)
    (h : loaderLocation l = .error e) :
    e = "AttributeError" ∨ e = "IndexError" := by
  unfold loaderLocation at h
  repeat' split at h
  all_goals simp_all

/-- The only exceptions `get_loader_full_path` can raise. -/
theorem get_loader_full_path_error_cases (resolve : String → String)
    (l : PyLoader) (e : String)
    (h : get_loader_full_path resolve l = .error e) :
    e = "AttributeError" ∨ e = "IndexError" := by
  unfold get_loader_full_path at h
  split at h
  · simp at h
  · cases hl : loaderLocation l with
    | error e' =>
        rw [hl] at h
        simp [Except.map] at h
        exact h ▸ loaderLocation_error_cases l e' hl
    | ok v => rw [hl] at h; simp [Except.map] at h

/-! ## Claim theorems -/

/-- Claim C7: `get_loader_type` looks the name up across the four static
lists in the priority order file, dir, in-memory, remote_db, returns the
category of the first list containing it exactly, and returns `"unknown"`
exactly for the names absent from all four lists. -/
theorem get_loader_type_classification :
    (∀ name : String,
      get_loader_type name =
        if file_loader.contains name then "file"
        else if dir_loader.contains name then "dir"
        else if in_memory.contains name then "in-memory"
        else if remote_db.contains name then "remote_db"
        else "unknown")
    ∧ (∀ name : String,
      get_loader_type name = "unknown" ↔
        (file_loader.contains name = false ∧ dir_loader.contains name = false ∧
         in_memory.contains name = false ∧ remote_db.contains name = false)) := by
  have h1 : ∀ name : String,
      get_loader_type name =
        if file_loader.contains name then "file"
        else if dir_loader.contains name then "dir"
        else if in_memory.contains name then "in-memory"
        else if remote_db.contains name then "remote_db"
        else "unknown" := fun name => rfl
  refine ⟨h1, fun name => ?_⟩
  rw [h1 name]
  split_ifs with hf hd hm hr <;> simp_all

/-- Witness for C7 at concrete loader names from each list and outside
all of them. -/
theorem get_loader_type_classification_witness :
    get_loader_type "CSVLoader" = "file"
    ∧ get_loader_type "NotionDirectoryLoader" = "dir"
    ∧ get_loader_type "DataFrameLoader" = "in-memory"
    ∧ get_loader_type "GoogleDriveLoader" = "remote_db"
    ∧ get_loader_type "FooLoader" = "unknown" := by
  have h := get_loader_type_classification
  refine ⟨?_, ?_, ?_, ?_, (h.2 "FooLoader").mpr (by decide)⟩
  · rw [h.1 "CSVLoader"]; decide
  · rw [h.1 "NotionDirectoryLoader"]; decide
  · rw [h.1 "DataFrameLoader"]; decide
  · rw [h.1 "GoogleDriveLoader"]; decide

/-- Claim C8: `get_full_path` returns the path unchanged when it is
empty, already absolute, contains the scheme separator, or equals one of
the sentinels, and resolves every other path to absolute form. -/
theorem get_full_path_guards (resolve : String → String) (path : String) :
    ((path.isEmpty = true ∨ hasSchemeSep path = true ∨ path.front = '/'
        ∨ path = "unknown" ∨ path = "-" ∨ path = "in-memory") →
      get_full_path resolve path = path)
    ∧ (path.isEmpty = false → hasSchemeSep path = false → path.front ≠ '/'
        → path ≠ "unknown" → path ≠ "-" → path ≠ "in-memory"
        → get_full_path resolve path = resolve path) := by
  have hguard : (path.isEmpty || hasSchemeSep path || path.front == '/'
        || ["unknown", "-", "in-memory"].contains path) = true ↔
      (path.isEmpty = true ∨ hasSchemeSep path = true ∨ path.front = '/'
        ∨ path = "unknown" ∨ path = "-" ∨ path = "in-memory") := by
    constructor <;> (intro h; simp_all; tauto)
  constructor
  · intro h
    rw [get_full_path, if_pos (hguard.mpr h)]
  · intro h1 h2 h3 h4 h5 h6
    have hng : ¬((path.isEmpty || hasSchemeSep path || path.front == '/'
        || ["unknown", "-", "in-memory"].contains path) = true) := by
      rw [hguard]
      intro hd
      rcases hd with h | h | h | h | h | h <;> simp_all
    rw [get_full_path, if_neg hng]

/-- Witness for C8: an absolute path and a scheme path pass through
unchanged, a relative path is resolved. -/
theorem get_full_path_guards_witness :
    get_full_path exResolve "/a/b" = "/a/b"
    ∧ get_full_path exResolve "http://x/y" = "http://x/y"
    ∧ get_full_path exResolve "rel/f.txt" = "/cwd/rel/f.txt" := by
  refine ⟨?_, ?_, ?_⟩
  · exact (get_full_path_guards exResolve "/a/b").1
      (Or.inr (Or.inr (Or.inl (by decide))))
  · exact (get_full_path_guards exResolve "http://x/y").1
      (Or.inr (Or.inl (by decide)))
  · have h := (get_full_path_guards exResolve "rel/f.txt").2
      (by decide) (by decide) (by decide) (by decide) (by decide) (by decide)
    rw [h]
    decide

/-- Claim C9: `get_source_size` returns a regular file's byte size, and
for a directory the recursive sum of the sizes of the non-symlink regular
files beneath it, symbolic links excluded. -/
theorem get_source_size_spec :
    (∀ (fs : FileSystem) (p : String) (sz : Nat),
        fs.lookup p = some (FSNode.file sz) →
        get_source_size fs (some p) = .ok sz)
    ∧ (∀ (fs : FileSystem) (p : String) (es : List (String × FSNode)),
        fs.lookup p = some (FSNode.dir es) →
        get_source_size fs (some p) = .ok (entriesTotal es)) := by
  have hstep : ∀ (fs : FileSystem) (p : String),
      get_source_size fs (some p) =
        match fs.lookup p with
        | some (FSNode.file sz) => .ok sz
        | some (FSNode.dir es) => .ok (walkEntriesTotal es)
        | _ => .error "UnboundLocalError" := fun fs p => rfl
  constructor
  · intro fs p sz h
    rw [hstep, h]
  · intro fs p es h
    rw [hstep, h]
    show Except.ok (walkEntriesTotal es) = Except.ok (entriesTotal es)
    rw [walkEntriesTotal_eq_entriesTotal]

/-- Witness for C9: a five-byte file, and a directory holding files of
sizes 10 and 20 plus one symbolic link, whose size is 30. -/
theorem get_source_size_spec_witness :
    get_source_size exFs (some "/tmp/a.txt") = .ok 5
    ∧ get_source_size exFs (some "/data") = .ok 30 := by
  constructor
  · exact get_source_size_spec.1 exFs "/tmp/a.txt" 5 rfl
  · have h := get_source_size_spec.2 exFs "/data"
      [("f1", FSNode.file 10), ("f2", FSNode.file 20), ("lnk", FSNode.symlink)]
      rfl
    rw [h]
    simp [entriesTotal]

/-- Claim C10: in every loader/doc report body the code builds for the
POST, the `loading_end` field is the literal string `"true"` on the
terminal report and `"false"` otherwise. -/
theorem loading_end_serialized_as_string :
    ∀ (st : LoaderState) (records : List DocRecord) (loading_end : Bool),
      (buildLoaderDocPayload st records loading_end).lookup "loading_end" =
        some (PVal.s (if loading_end then "true" else "false")) := by
  intro st records loading_end
  exact lookup_payload_loading_end st records loading_end

/-- Claim C1 (amended): `load` delegates to the wrapped loader's eager
load and makes exactly one terminal `_send_loader_doc` call whose payload
carries one record per just-loaded document (not an empty list) with
`loading_end = "true"`; that payload fails `Doc` validation, the error
propagates, and the document list is not returned to the caller. -/
theorem load_terminal_report (fs : FileSystem) (resolve : String → String)
    (st : LoaderState) (l : PyLoader) (net : HttpOutcome)
    (records : List DocRecord)
    (hrec : buildDocRecords fs resolve l.eagerDocs = .ok records) :
    load fs resolve st l net =
      ⟨⟨some (buildLoaderDocPayload st records true), false,
        some "ValidationError", false⟩, none⟩
    ∧ (buildLoaderDocPayload st records true).lookup "docs"
        = some (PVal.docList records)
    ∧ (buildLoaderDocPayload st records true).lookup "loading_end"
        = some (PVal.s "true") := by
  refine ⟨?_, lookup_payload_docs st records true,
    lookup_payload_loading_end st records true⟩
  have hsend := send_loader_doc_eq fs resolve st l.eagerDocs true net records hrec
  unfold load
  simp only [hsend]

/-- Witness for C1's amended statement at a concrete one-document loader. -/
theorem load_terminal_report_witness :
    buildDocRecords exFs exResolve exLoader.eagerDocs = .ok [exRecord1]
    ∧ (load exFs exResolve exSt exLoader .requestError).returned = none
    ∧ ((load exFs exResolve exSt exLoader .requestError).send.builtPayload
        = some (buildLoaderDocPayload exSt [exRecord1] true)) := by
  have hrec : buildDocRecords exFs exResolve exLoader.eagerDocs
      = .ok [exRecord1] := by decide
  have h := load_terminal_report exFs exResolve exSt exLoader .requestError
    [exRecord1] hrec
  exact ⟨hrec, by rw [h.1], by rw [h.1]⟩

/-- Counterexample to C1 as stated: at a concrete one-document loader the
single terminal payload's document list is NOT empty, and the loader's
document list is NOT returned to the caller. -/
theorem load_terminal_report_cex :
    ((load exFs exResolve exSt exLoader .requestError).send.builtPayload.map
        (fun p => p.lookup "docs")) ≠ some (some (PVal.docList []))
    ∧ (load exFs exResolve exSt exLoader .requestError).returned
        ≠ some exLoader.eagerDocs := by
  decide

/-- Claim C3 (code evaluated at the failing input): over a wrapped loader
whose lazy iterator yields two documents, `lazy_load` yields NO batch: the
first non-terminal report payload already fails `Doc` validation (payload
key `file_owner` vs required schema field `source_owner`), and the
exception escapes the generator on the first pull. -/
theorem lazy_load_aborts_at_first_report :
    exLazyLoader.lazyDocs = some [exDoc1, exDoc2]
    ∧ (lazy_load exFs exResolve exSt exLazyLoader .requestError).yielded = []
    ∧ (lazy_load exFs exResolve exSt exLazyLoader .requestError).sends.length = 1
    ∧ (lazy_load exFs exResolve exSt exLazyLoader .requestError).raisedErr
        = some "ValidationError" := by
  decide

/-- Claim C4 (amended): `_send_discover` never raises whatever the
network answers, but `_send_loader_doc` validates its payload before its
`try` block, always fails, never reaches its POST, and the error
propagates, so `load` never returns the documents. -/
theorem reporting_error_policy :
    (∀ net : HttpOutcome, (send_discover net).raisedErr = none)
    ∧ (∀ (fs : FileSystem) (resolve : String → String) (st : LoaderState)
        (docsArg : List Document) (b : Bool) (net : HttpOutcome),
        (send_loader_doc fs resolve st docsArg b net).requestSent = false
        ∧ (send_loader_doc fs resolve st docsArg b net).raisedErr.isSome = true)
    ∧ (∀ (fs : FileSystem) (resolve : String → String) (st : LoaderState)
        (l : PyLoader) (net : HttpOutcome),
        (load fs resolve st l net).returned = none) := by
  refine ⟨?_, send_loader_doc_always_raises, ?_⟩
  · intro net
    cases net with
    | requestError => rfl
    | response r =>
        unfold send_discover
        repeat' split
        all_goals rfl
  · intro fs resolve st l net
    have h := (send_loader_doc_always_raises fs resolve st l.eagerDocs true net).2
    unfold load
    cases hr : (send_loader_doc fs resolve st l.eagerDocs true net).raisedErr with
    | none => rw [hr] at h; simp at h
    | some e => simp only [hr]

/-- Counterexample to C4 as stated: with a perfectly healthy network, a
serialization failure inside the reporting call makes `load` raise, and
the caller does not receive the wrapped loader's documents. -/
theorem reporting_failure_propagates_cex :
    (load exFs exResolve exSt exLoader (.response ⟨200, true⟩)).send.raisedErr
        ≠ none
    ∧ (load exFs exResolve exSt exLoader (.response ⟨200, true⟩)).returned
        ≠ some exLoader.eagerDocs := by
  decide

/-- Claim C5 (amended): the loader/doc payload carries `file_owner` but
no `source_owner` key while the `Doc` schema requires `source_owner`, so
validation fails on every call and no loader/doc HTTP request is ever
issued — but the exception PROPAGATES to the caller (the validation call
sits before the `try`/`except` block), it is not swallowed. -/
theorem send_loader_doc_missing_source_owner (fs : FileSystem)
    (resolve : String → String) (st : LoaderState) (docsArg : List Document)
    (b : Bool) (net : HttpOutcome) (records : List DocRecord)
    (hrec : buildDocRecords fs resolve docsArg = .ok records) :
    ((buildLoaderDocPayload st records b).lookup "file_owner").isSome = true
    ∧ (buildLoaderDocPayload st records b).lookup "source_owner" = none
    ∧ docRequiredFields.contains "source_owner" = true
    ∧ validateDoc (buildLoaderDocPayload st records b) = false
    ∧ send_loader_doc fs resolve st docsArg b net =
        ⟨some (buildLoaderDocPayload st records b), false,
         some "ValidationError", false⟩ := by
  refine ⟨?_, lookup_payload_source_owner st records b, by decide,
    validateDoc_payload_false st records b,
    send_loader_doc_eq fs resolve st docsArg b net records hrec⟩
  rw [lookup_payload_file_owner st records b]
  rfl

/-- Witness for C5's amended statement at a concrete call. -/
theorem send_loader_doc_missing_source_owner_witness :
    buildDocRecords exFs exResolve [exDoc1] = .ok [exRecord1]
    ∧ (send_loader_doc exFs exResolve exSt [exDoc1] false .requestError).requestSent
        = false := by
  have hrec : buildDocRecords exFs exResolve [exDoc1] = .ok [exRecord1] := by
    decide
  have h := send_loader_doc_missing_source_owner exFs exResolve exSt [exDoc1]
    false .requestError [exRecord1] hrec
  exact ⟨hrec, by rw [h.2.2.2.2]⟩

/-- Counterexample to C5 as stated: the validation exception is NOT
swallowed — at a concrete call the method's escaping exception is
present. -/
theorem send_loader_doc_raises_cex :
    (send_loader_doc exFs exResolve exSt [exDoc1] true
        (.response ⟨200, true⟩)).raisedErr ≠ none := by
  decide

/-- Claim C6 (amended): over a wrapped loader without lazy-iteration
support, `lazy_load` fails with a `NotImplementedError` whose message
names the wrapper's own class `DaxaSafeLoader`, not the wrapped loader's
dynamic type. -/
theorem lazy_load_not_implemented (fs : FileSystem)
    (resolve : String → String) (st : LoaderState) (l : PyLoader)
    (net : HttpOutcome) (h : l.lazyDocs = none) :
    lazy_load fs resolve st l net =
      ⟨[], [], some "DaxaSafeLoader does not implement lazy_load()"⟩ := by
  unfold lazy_load
  rw [h]

/-- Witness for C6's amended statement at a concrete loader. -/
theorem lazy_load_not_implemented_witness :
    exNoLazyLoader.lazyDocs = none
    ∧ lazy_load exFs exResolve exSt exNoLazyLoader .requestError =
        ⟨[], [], some "DaxaSafeLoader does not implement lazy_load()"⟩ := by
  exact ⟨rfl, lazy_load_not_implemented exFs exResolve exSt exNoLazyLoader
    .requestError rfl⟩

/-- Binding a successful `Except` computation just applies the
continuation. -/
theorem except_bind_ok {ε α β : Type} (a : α) (f : α → Except ε β) :
    (Except.ok a : Except ε α).bind f = f a := rfl

/-- With valid identity arguments, `__init__` reduces to the metadata
resolution pipeline followed by the discover report. -/
theorem daxaInit_str_unfold (fs : FileSystem) (resolve : String → String)
    (l : PyLoader) (a o d u : String) (net : HttpOutcome)
    (ha : a.isEmpty = false) (ho : o.isEmpty = false) :
    daxaInit fs resolve l (.str a) (.str o) d u net =
      (get_loader_full_path resolve l).bind (fun source_path =>
        (get_source_size fs (some source_path)).bind (fun source_size =>
          .ok ⟨{ app_name := a, load_id := u, owner := o, description := d,
                 source_path := source_path,
                 source_owner := get_file_owner_from_path fs (some source_path),
                 source_type := get_loader_type l.className,
                 source_size := source_size,
                 loader_details := ⟨l.className, source_path,
                                    get_loader_type l.className, source_size⟩ },
               send_discover net⟩)) := by
  simp only [daxaInit]
  rw [if_neg (by simp [ha]), if_neg (by simp [ho])]
  rfl

/-- A successful construction stores the drawn uuid as `load_id`. -/
theorem daxaInit_ok_load_id (fs : FileSystem) (resolve : String → String)
    (l : PyLoader) (app_id owner : PyVal) (d u : String) (net : HttpOutcome)
    (r : InitResult) (h : daxaInit fs resolve l app_id owner d u net = .ok r) :
    r.state.load_id = u := by
  cases app_id with
  | nonStr t => simp [daxaInit] at h
  | str a =>
    cases owner with
    | nonStr t => by_cases ha : a.isEmpty <;> simp [daxaInit, ha] at h
    | str o =>
      by_cases ha : a.isEmpty
      · simp [daxaInit, ha] at h
      · by_cases ho : o.isEmpty
        · simp [daxaInit, ha, ho] at h
        · rw [daxaInit_str_unfold fs resolve l a o d u net
            (by simpa using ha) (by simpa using ho)] at h
          cases hsp : get_loader_full_path resolve l with
          | error e => rw [hsp] at h; simp [Except.bind] at h
          | ok sp =>
            rw [hsp, except_bind_ok] at h
            cases hsz : get_source_size fs (some sp) with
            | error e => rw [hsz] at h; simp [Except.bind] at h
            | ok sz =>
              rw [hsz, except_bind_ok] at h
              cases h
              rfl

/-- With valid identity arguments, construction either succeeds (storing
the drawn uuid) or raises one of the metadata-resolution errors — never a
`NameError`. -/
theorem daxaInit_valid_outcomes (fs : FileSystem) (resolve : String → String)
    (l : PyLoader) (a o d u : String) (net : HttpOutcome)
    (ha : a.isEmpty = false) (ho : o.isEmpty = false) :
    (∃ r, daxaInit fs resolve l (.str a) (.str o) d u net = .ok r
        ∧ r.state.load_id = u)
    ∨ (∃ e, daxaInit fs resolve l (.str a) (.str o) d u net = .error e
        ∧ (e = "AttributeError" ∨ e = "IndexError" ∨ e = "TypeError"
           ∨ e = "UnboundLocalError")) := by
  rw [daxaInit_str_unfold fs resolve l a o d u net ha ho]
  cases hsp : get_loader_full_path resolve l with
  | error e =>
      right
      refine ⟨e, rfl, ?_⟩
      rcases get_loader_full_path_error_cases resolve l e hsp with h | h
      · exact Or.inl h
      · exact Or.inr (Or.inl h)
  | ok sp =>
      rw [except_bind_ok]
      cases hsz : get_source_size fs (some sp) with
      | error e =>
          right
          refine ⟨e, rfl, ?_⟩
          rcases get_source_size_error_cases fs (some sp) e hsz with h | h
          · exact Or.inr (Or.inr (Or.inl h))
          · exact Or.inr (Or.inr (Or.inr h))
      | ok sz =>
          rw [except_bind_ok]
          exact Or.inl ⟨_, rfl, rfl⟩

/-- Claim C2: construction raises the invalid-argument `NameError`
exactly when `app_id` or `owner` is missing/falsy or not a string; for
valid non-empty strings it succeeds (whenever the loader's source path
resolves and has a defined size) and stores the fresh uuid drawn for this
instance as its load identifier, so two instances with distinct draws
never share one. -/
theorem daxaInit_validation_and_fresh_id :
    (∀ (fs : FileSystem) (resolve : String → String) (l : PyLoader)
        (app_id owner : PyVal) (d u : String) (net : HttpOutcome),
        (daxaInit fs resolve l app_id owner d u net = .error nameErrorAppId
         ∨ daxaInit fs resolve l app_id owner d u net = .error nameErrorOwner)
        ↔ ¬(validIdArg app_id = true ∧ validIdArg owner = true))
    ∧ (∀ (fs : FileSystem) (resolve : String → String) (l : PyLoader)
        (a o d u : String) (net : HttpOutcome) (sp : String) (sz : Nat),
        a.isEmpty = false → o.isEmpty = false →
        get_loader_full_path resolve l = .ok sp →
        get_source_size fs (some sp) = .ok sz →
        ∃ r, daxaInit fs resolve l (.str a) (.str o) d u net = .ok r
          ∧ r.state.load_id = u)
    ∧ (∀ (fs : FileSystem) (resolve : String → String) (l : PyLoader)
        (app_id owner : PyVal) (d : String) (u₁ u₂ : String)
        (net : HttpOutcome) (r₁ r₂ : InitResult),
        daxaInit fs resolve l app_id owner d u₁ net = .ok r₁ →
        daxaInit fs resolve l app_id owner d u₂ net = .ok r₂ →
        u₁ ≠ u₂ → r₁.state.load_id ≠ r₂.state.load_id) := by
  refine ⟨?_, ?_, ?_⟩
  · intro fs resolve l app_id owner d u net
    constructor
    · intro h hv
      obtain ⟨hva, hvo⟩ := hv
      cases app_id with
      | nonStr t => simp [validIdArg] at hva
      | str a =>
        cases owner with
        | nonStr t => simp [validIdArg] at hvo
        | str o =>
          have ha : a.isEmpty = false := by
            simpa [validIdArg] using hva
          have ho : o.isEmpty = false := by
            simpa [validIdArg] using hvo
          rcases daxaInit_valid_outcomes fs resolve l a o d u net ha ho with
            ⟨r, hr, _⟩ | ⟨e, he, hcases⟩
          · rw [hr] at h
            rcases h with h | h <;> exact Except.noConfusion h
          · rw [he] at h
            rcases h with h | h <;>
              (injection h with h; rcases hcases with hc | hc | hc | hc <;>
                simp_all [nameErrorAppId, nameErrorOwner])
    · intro hv
      by_cases hva : validIdArg app_id = true
      · have hvo : validIdArg owner = false := by
          cases hvx : validIdArg owner
          · rfl
          · exact absurd ⟨hva, hvx⟩ hv
        cases app_id with
        | nonStr t => simp [validIdArg] at hva
        | str a =>
          have ha : a.isEmpty = false := by simpa [validIdArg] using hva
          cases owner with
          | nonStr t =>
              right
              simp [daxaInit, ha]
          | str o =>
              right
              have ho : o.isEmpty = true := by
                simpa [validIdArg] using hvo
              simp [daxaInit, ha, ho]
      · left
        cases app_id with
        | nonStr t => rfl
        | str a =>
            have ha : a.isEmpty = true := by
              simpa [validIdArg] using hva
            simp [daxaInit, ha]
  · intro fs resolve l a o d u net sp sz ha ho hsp hsz
    rw [daxaInit_str_unfold fs resolve l a o d u net ha ho, hsp,
      except_bind_ok, hsz, except_bind_ok]
    exact ⟨_, rfl, rfl⟩
  · intro fs resolve l app_id owner d u₁ u₂ net r₁ r₂ h₁ h₂ hne
    rw [daxaInit_ok_load_id fs resolve l app_id owner d u₁ net r₁ h₁,
      daxaInit_ok_load_id fs resolve l app_id owner d u₂ net r₂ h₂]
    exact hne

/-- Witness for C2 at concrete inputs: an invalid empty `app_id` and a
non-string `owner` raise the `NameError`s, a valid pair succeeds with the
drawn uuid stored, and two instances with distinct draws get distinct
load identifiers. -/
theorem daxaInit_validation_and_fresh_id_witness :
    (daxaInit exFs exResolve exLoader (.str "") (.str "joe") "" "u-1"
        .requestError = .error nameErrorAppId
      ∨ daxaInit exFs exResolve exLoader (.str "") (.str "joe") "" "u-1"
        .requestError = .error nameErrorOwner)
    ∧ (daxaInit exFs exResolve exLoader (.str "app") (.nonStr true) "" "u-1"
        .requestError = .error nameErrorAppId
      ∨ daxaInit exFs exResolve exLoader (.str "app") (.nonStr true) "" "u-1"
        .requestError = .error nameErrorOwner)
    ∧ (∃ r, daxaInit exFs exResolve exLoader (.str "app") (.str "joe") ""
        "u-1" .requestError = .ok r ∧ r.state.load_id = "u-1") := by
  have h := daxaInit_validation_and_fresh_id
  refine ⟨?_, ?_, ?_⟩
  · exact (h.1 exFs exResolve exLoader (.str "") (.str "joe") "" "u-1"
      .requestError).mpr (by decide)
  · exact (h.1 exFs exResolve exLoader (.str "app") (.nonStr true) "" "u-1"
      .requestError).mpr (by decide)
  · exact h.2.1 exFs exResolve exLoader "app" "joe" "" "u-1" .requestError
      "/tmp/a.txt" 5 (by decide) (by decide) (by decide) (by decide)

/-- Counterexample to C6 as stated: for a wrapped loader of dynamic type
`TextLoader`, the error message never mentions `TextLoader` (the name
does not occur in it as a substring). -/
theorem lazy_load_error_names_wrapper_cex :
    exNoLazyLoader.className = "TextLoader"
    ∧ (lazy_load exFs exResolve exSt exNoLazyLoader .requestError).raisedErr
        = some "DaxaSafeLoader does not implement lazy_load()"
    ∧ containsChars "TextLoader".data
        "DaxaSafeLoader does not implement lazy_load()".data = false := by
  decide

end DaxaModel
